import Mathlib

/-!
Verification development for the shadow-agentic repository.

The repository's `src/` holds the request-intake surface of the system:
a React form component (`interface.tsx`), the status / send-message API
routes (`route.ts`), and the RabbitMQ transport (`rabbitmq.ts`).  These
are embedded shallowly below: each handler becomes a total Lean function
over an explicit description of its environment (parse results, fetch
outcomes, AMQP step outcomes), returning the responses it produces and
the externally visible actions (HTTP calls, queue publishes) it performs.
The multi-agent analysis core (orchestrator, analyzer agents, insights
aggregator) is not present in `src/`; it is modelled from the
specification where a claim needs it, and those definitions are marked
as such in their doc comments.
-/

namespace Shadow

/-- An HTTP JSON response: status code plus the JSON object body,
given as an ordered list of key/value fields (all values in the
responses produced by the routes are strings). -/
structure HttpResponse where
  status : Nat
  fields : List (String × String)
deriving DecidableEq

/-- Outcome of awaiting one external step: it either resolves or throws. -/
inductive StepOutcome where
  | ok
  | throws
deriving DecidableEq

/-! ## `GET` of `src/app/api/status/route.ts`

```ts
export async function GET() {
  try {
    await checkRabbitMQConnection()
    return NextResponse.json({ status: 'Connected' })
  } catch (error) {
    return NextResponse.json({ status: 'Disconnected' })
  }
}
```
The handler is embedded as a total function of the outcome of
`checkRabbitMQConnection()`; totality expresses that no error from the
connection check propagates to the caller. -/

def GET (check : StepOutcome) : HttpResponse :=
  match check with
  | .ok => { status := 200, fields := [("status", "Connected")] }
  | .throws => { status := 200, fields := [("status", "Disconnected")] }

/-! ## `POST` of `src/app/api/send-message/route.ts` -/

/-- The parsed JSON body as the `POST` handler inspects it: it only reads
`body.wallet` (a string field that may be absent) before handing the whole
body on; `preferences` is carried along untouched. -/
structure RequestBody where
  wallet : Option String
  preferences : Option String
deriving DecidableEq

/-- JavaScript truthiness of `body.wallet` as tested by `if (!body.wallet)`:
an absent field or the empty string is falsy. -/
def walletTruthy (b : RequestBody) : Bool :=
  match b.wallet with
  | none => false
  | some s => s ≠ ""

/-- Result of one `POST` invocation: the response returned to the caller
and the list of message bodies handed to `sendToRabbitMQ` (hence toward
the queue) during the invocation. -/
structure PostResult where
  response : HttpResponse
  queued : List RequestBody
deriving DecidableEq

/-- The `POST` handler of the send-message route.

```ts
export async function POST(request: NextRequest) {
  try {
    const body = await request.json()
    if (!body.wallet) {
      return NextResponse.json({ error: 'Wallet address is required' }, { status: 400 })
    }
    await sendToRabbitMQ(body)
    return NextResponse.json({ status: 'success' })
  } catch (error) {
    console.error('Error sending message:', error)
    return NextResponse.json({ error: 'Failed to send message' }, { status: 500 })
  }
}
```
`parse` is the outcome of `request.json()` (`none` = it threw), `send`
the outcome of `sendToRabbitMQ(body)`. -/
def POST (parse : Option RequestBody) (send : StepOutcome) : PostResult :=
  match parse with
  | none =>
      { response := { status := 500, fields := [("error", "Failed to send message")] },
        queued := [] }
  | some body =>
      if !walletTruthy body then
        { response := { status := 400, fields := [("error", "Wallet address is required")] },
          queued := [] }
      else
        match send with
        | .ok =>
            { response := { status := 200, fields := [("status", "success")] },
              queued := [body] }
        | .throws =>
            { response := { status := 500, fields := [("error", "Failed to send message")] },
              queued := [body] }

/-! ## `validateWallet` and `handleSubmit` of `src/components/interface.tsx` -/

/-- Membership in the character class `[1-9A-HJ-NP-Za-km-z]` of the
wallet-validation regex (Base58: digits and letters minus `0`, `O`, `I`, `l`). -/
def isBase58Char (c : Char) : Bool :=
  ('1' ≤ c && c ≤ '9') || ('A' ≤ c && c ≤ 'H') || ('J' ≤ c && c ≤ 'N') ||
  ('P' ≤ c && c ≤ 'Z') || ('a' ≤ c && c ≤ 'k') || ('m' ≤ c && c ≤ 'z')

/-- `validateWallet` of `interface.tsx`:
`/^[1-9A-HJ-NP-Za-km-z]{32,44}$/.test(address)` — every character is in
the Base58 class and the length is between 32 and 44. -/
def validateWallet (address : String) : Bool :=
  address.data.all isBase58Char &&
  decide (32 ≤ address.length) && decide (address.length ≤ 44)

/-- One entry of the on-screen Recent Requests history
(the `Message` interface of `interface.tsx`). -/
structure Message where
  wallet : String
  preferences : String
  timestamp : String
deriving DecidableEq

/-- The JSON body `{ wallet, preferences }` the form posts to
`/api/send-message`. -/
structure SendBody where
  wallet : String
  preferences : String
deriving DecidableEq

/-- Outcome of the `fetch('/api/send-message', ...)` call inside
`handleSubmit`: a response with `ok = true`, a response with `ok = false`,
or a rejection carrying an error message. -/
inductive FetchOutcome where
  | respOk
  | respNotOk
  | throwsWith (msg : String)
deriving DecidableEq

/-- Observable result of one `handleSubmit` run: the error banner text
(empty when no error was set), the bodies posted to `/api/send-message`,
and the resulting Recent Requests history. -/
structure SubmitResult where
  error : String
  calls : List SendBody
  history : List Message
deriving DecidableEq

/-- `handleSubmit` of `interface.tsx`, as a function of the two form
fields, the timestamp taken at success, the outcome of the fetch, and the
previous history:

```ts
if (!validateWallet(walletAddress)) {
  setError('Invalid wallet address format'); setIsLoading(false); return
}
try {
  const response = await fetch('/api/send-message', { ...,
    body: JSON.stringify({ wallet: walletAddress, preferences: preferences || 'default' }) })
  if (!response.ok) throw new Error('Failed to send message')
  setMessages(prev => [{ wallet: walletAddress, preferences, timestamp: ... }, ...prev])
  ...
} catch (err) { setError(err instanceof Error ? err.message : 'An error occurred') }
```
`preferences || 'default'` applies JavaScript falsiness: the empty string
is replaced by `"default"`. The history entry records the raw
`preferences` state, not the value that was posted. -/
def handleSubmit (walletAddress preferences timestamp : String)
    (outcome : FetchOutcome) (prev : List Message) : SubmitResult :=
  if !validateWallet walletAddress then
    { error := "Invalid wallet address format", calls := [], history := prev }
  else
    let body : SendBody :=
      { wallet := walletAddress,
        preferences := if preferences = "" then "default" else preferences }
    match outcome with
    | .respOk =>
        { error := "",
          calls := [body],
          history := { wallet := walletAddress, preferences := preferences,
                       timestamp := timestamp } :: prev }
    | .respNotOk =>
        { error := "Failed to send message", calls := [body], history := prev }
    | .throwsWith msg =>
        { error := msg, calls := [body], history := prev }

/-! ## `sendToRabbitMQ` of `src/lib/rabbitmq.ts` -/

/-- The externally visible AMQP actions `sendToRabbitMQ` can perform, in
order of occurrence.  `published q payload persistent` is a
`channel.sendToQueue(q, Buffer.from(payload), { persistent })` call. -/
inductive AmqpEvent where
  | connected
  | channelCreated
  | queueAsserted (queue : String) (durable : Bool)
  | published (queue : String) (payload : String) (persistent : Bool)
  | channelClosed
  | connectionClosed
deriving DecidableEq

/-- Environment of one `sendToRabbitMQ` run: the configured queue name
(`process.env.RABBITMQ_QUEUE || 'input_queue'`) and the outcome of each
awaited AMQP step.  `connection.close()` in the `finally` block is modelled
as always succeeding. -/
structure AmqpEnv where
  queueName : String
  connect : StepOutcome
  createChannel : StepOutcome
  assertQueue : StepOutcome
  send : StepOutcome
  closeChannel : StepOutcome
deriving DecidableEq

/-- Result of one `sendToRabbitMQ` run: the ordered trace of AMQP events
and whether the call returned normally or rethrew an error (with a tag
naming the step that threw). -/
structure SendResult where
  events : List AmqpEvent
  outcome : Except String Unit

/-- `sendToRabbitMQ` of `rabbitmq.ts`:

```ts
export async function sendToRabbitMQ(message: any) {
  let connection
  try {
    connection = await getConnection()
    const channel = await connection.createChannel()
    await channel.assertQueue(QUEUE_NAME, { durable: true })
    channel.sendToQueue(QUEUE_NAME, Buffer.from(JSON.stringify(message)), { persistent: true })
    await channel.close()
  } catch (error) {
    console.error('Error sending message to RabbitMQ:', error)
    throw error
  } finally {
    if (connection) { await connection.close() }
  }
}
```
`stringify` stands for `JSON.stringify`: the published payload is its
output on `message`, verbatim.  The `finally` block closes the connection
whenever one was opened, before the rethrown error reaches the caller, so
on every such path `connectionClosed` is the final event. -/
def sendToRabbitMQ {α : Type} (stringify : α → String) (env : AmqpEnv)
    (message : α) : SendResult :=
  match env.connect with
  | .throws => { events := [], outcome := .error "connect" }
  | .ok =>
    match env.createChannel with
    | .throws =>
        { events := [.connected, .connectionClosed], outcome := .error "createChannel" }
    | .ok =>
      match env.assertQueue with
      | .throws =>
          { events := [.connected, .channelCreated, .connectionClosed],
            outcome := .error "assertQueue" }
      | .ok =>
        match env.send with
        | .throws =>
            { events := [.connected, .channelCreated,
                         .queueAsserted env.queueName true, .connectionClosed],
              outcome := .error "sendToQueue" }
        | .ok =>
          match env.closeChannel with
          | .throws =>
              { events := [.connected, .channelCreated,
                           .queueAsserted env.queueName true,
                           .published env.queueName (stringify message) true,
                           .connectionClosed],
                outcome := .error "closeChannel" }
          | .ok =>
              { events := [.connected, .channelCreated,
                           .queueAsserted env.queueName true,
                           .published env.queueName (stringify message) true,
                           .channelClosed, .connectionClosed],
                outcome := .ok () }

/-- JSON serialization of the `{ wallet, preferences }` body the form
submits, as `JSON.stringify` renders it (used to instantiate `stringify`
at concrete inputs; neither field needs escaping in the scenarios
considered). -/
def sendBodyJson (b : SendBody) : String :=
  "\x7b\"wallet\":\"" ++ b.wallet ++ "\",\"preferences\":\"" ++ b.preferences ++ "\"\x7d"

/-! ## The analysis core, modelled from the specification

The orchestrator, analyzer agents and insights aggregator are not among
the files under `src/`; the definitions in this section are modelled from
the specification's component design (sections 4.3, 4.4 and 7). -/

/-- Modelled from the spec: the `agentKind` enum of an `AgentFinding`
(`Sentiment`, `Technical`, `Wallet`); the analyzer-agent source code is
missing from the repository snapshot. -/
inductive AgentKind where
  | sentiment
  | technical
  | wallet
deriving DecidableEq

/-- Modelled from the spec: the `status` enum of an `AgentFinding`
(`Ok`, `PartialData`, `Failed`); `incomplete` stands for `PartialData`. -/
inductive FindingStatus where
  | ok
  | incomplete
  | failed
deriving DecidableEq

/-- Boolean test for `status = Ok`. -/
def FindingStatus.isOkStatus : FindingStatus → Bool
  | .ok => true
  | _ => false

/-- Boolean test for `status = Failed`. -/
def FindingStatus.isFailedStatus : FindingStatus → Bool
  | .failed => true
  | _ => false

/-- Modelled from the spec: the `AgentFinding` record produced by one
analyzer invocation (the `rawRef`/timestamp bookkeeping fields, which no
aggregation rule reads, are omitted); the analyzer-agent source code is
missing from the repository snapshot. -/
structure AgentFinding where
  agentKind : AgentKind
  summary : String
  score : ℚ
  confidence : ℚ
  status : FindingStatus
deriving DecidableEq

/-- Modelled from the spec: the `overallAction` enum of a
`Recommendation` (`Buy`, `Sell`, `Hold`, `Reduce`, `NoAction`). -/
inductive TradeAction where
  | buy
  | sell
  | hold
  | reduce
  | noAction
deriving DecidableEq

/-- Modelled from the spec: the terminal `Recommendation` artifact
(`generatedAt` omitted — no aggregation rule reads it). -/
structure Recommendation where
  walletAddress : String
  overallAction : TradeAction
  rationale : String
  contributingFindings : List AgentFinding
deriving DecidableEq

/-- Modelled from the spec: the `WalletRequest` consumed by the
orchestrator. -/
structure WalletRequest where
  walletAddress : String
  preferences : String
deriving DecidableEq

/-- Modelled from the spec: one completion returned by the language
model for the aggregation prompt — parsed into an action, parsed but
ambiguous (split signal), malformed free text, or a failed call. -/
inductive ModelReply where
  | parsed (action : TradeAction) (rationale : String)
  | ambiguous (rationale : String)
  | malformed (text : String)
  | failed
deriving DecidableEq

/-- Modelled from the spec: what one model completion settles to.
`parsed` yields its action; an `ambiguous` completion falls to `Hold` by
the tie-break rule (never `Buy`/`Sell`); `malformed` and `failed` yield
nothing and trigger the retry policy. -/
def replySettles : ModelReply → Option (TradeAction × String)
  | .parsed a r => some (a, r)
  | .ambiguous r => some (.hold, r)
  | .malformed _ => none
  | .failed => none

/-- Modelled from the spec: the model as an oracle mapping the
aggregation prompt to the completion of the first attempt and, if
needed, of the single retry. -/
structure ModelOracle where
  firstReply : String → ModelReply
  retryReply : String → ModelReply

/-- Modelled from the spec: the oracle lets the aggregation call settle
(first attempt or the one retry yields a usable completion) on the given
prompt. -/
def ModelOracle.settles (o : ModelOracle) (prompt : String) : Bool :=
  (replySettles (o.firstReply prompt)).isSome ||
  (replySettles (o.retryReply prompt)).isSome

/-- Modelled from the spec: the weight a finding contributes — its
confidence when `Ok`, half of it when `PartialData` (fixed discount),
and excluded from weighting when `Failed`. -/
def effectiveWeight (f : AgentFinding) : ℚ :=
  match f.status with
  | .ok => f.confidence
  | .incomplete => f.confidence / 2
  | .failed => 0

/-- Modelled from the spec: the deterministic aggregation prompt,
embedding each non-`Failed` finding's summary, score and weight. -/
def aggregationPrompt (findings : List AgentFinding) : String :=
  String.intercalate "; "
    ((findings.filter (fun f => !f.status.isFailedStatus)).map
      (fun f => f.summary ++ " score " ++ toString f.score ++
        " weight " ++ toString (effectiveWeight f)))

/-- Modelled from the spec: the error of the sole fatal path — the
aggregator's own model call failed even after its one retry. -/
inductive OrchestrationError where
  | aggregationModelFailed
deriving DecidableEq

/-- Result of one `synthesize` run: the recommendation or the fatal
error, plus how many model calls were made for aggregation. -/
structure SynthesisResult where
  outcome : Except OrchestrationError Recommendation
  modelCalls : Nat

/-- Rationale text of the no-signal short-circuit. -/
def insufficientDataRationale : String :=
  "Insufficient data: no analyzer finding with status Ok"

/-- Helper assembling a `Recommendation`. -/
def mkRecommendation (walletAddress : String) (a : TradeAction)
    (rationale : String) (findings : List AgentFinding) : Recommendation :=
  { walletAddress := walletAddress, overallAction := a,
    rationale := rationale, contributingFindings := findings }

/-- Modelled from the spec: `synthesize(findings) → Recommendation`
(section 4.3).  If zero findings have `status = Ok`, return
`overallAction = NoAction` with a rationale stating insufficient data and
no model call.  Otherwise build the aggregation prompt and invoke the
model once; on an unusable completion retry once; if the retry is also
unusable the aggregation fails fatally (section 4.4).  All findings stay
listed in `contributingFindings` for transparency. -/
def synthesize (oracle : ModelOracle) (walletAddress : String)
    (findings : List AgentFinding) : SynthesisResult :=
  if findings.any (fun f => f.status.isOkStatus) then
    let prompt := aggregationPrompt findings
    match replySettles (oracle.firstReply prompt) with
    | some ar =>
        { outcome := .ok (mkRecommendation walletAddress ar.1 ar.2 findings),
          modelCalls := 1 }
    | none =>
        match replySettles (oracle.retryReply prompt) with
        | some ar =>
            { outcome := .ok (mkRecommendation walletAddress ar.1 ar.2 findings),
              modelCalls := 2 }
        | none =>
            { outcome := .error .aggregationModelFailed, modelCalls := 2 }
  else
    { outcome := .ok (mkRecommendation walletAddress .noAction
        insufficientDataRationale findings),
      modelCalls := 0 }

/-- Modelled from the spec: the settled finding of each of the three
analyzer agents as collected by the orchestrator's join barrier — every
analyzer resolves to an `AgentFinding` (fetch errors, model errors and
timeouts are absorbed locally into `Failed`/`PartialData` findings and
never reach the orchestrator as errors). -/
structure AnalyzerOutcomes where
  sentimentFinding : AgentFinding
  technicalFinding : AgentFinding
  walletFinding : AgentFinding
deriving DecidableEq

/-- The findings handed to the aggregator, in fan-out order. -/
def settledFindings (o : AnalyzerOutcomes) : List AgentFinding :=
  [o.sentimentFinding, o.technicalFinding, o.walletFinding]

/-- Modelled from the spec: the failures `processRequest` can report —
a `ValidationError` (malformed request, rejected before any work) or the
`OrchestrationError` of a fatally failed aggregation. -/
inductive PipelineError where
  | invalidRequest
  | aggregationFailed
deriving DecidableEq

/-- Result of one `processRequest` run: the recommendation or failure,
plus the number of model calls the aggregation made. -/
structure PipelineResult where
  outcome : Except PipelineError Recommendation
  aggregatorModelCalls : Nat

/-- Modelled from the spec: the orchestrator's
`processRequest(WalletRequest) → Recommendation | OrchestrationError`
(sections 4.4, 6 and 7).  A malformed request (invalid wallet format) is
rejected before any fetch/analyze work; otherwise the three analyzers
settle to findings and the aggregator synthesizes them, its fatal
failure being the sole failing path thereafter. -/
def processRequest (oracle : ModelOracle) (outcomes : AnalyzerOutcomes)
    (req : WalletRequest) : PipelineResult :=
  if validateWallet req.walletAddress then
    let s := synthesize oracle req.walletAddress (settledFindings outcomes)
    { outcome :=
        match s.outcome with
        | .ok rec => .ok rec
        | .error _ => .error .aggregationFailed,
      aggregatorModelCalls := s.modelCalls }
  else
    { outcome := .error .invalidRequest, aggregatorModelCalls := 0 }

/-- Boolean test for an `Except` value being `ok`. -/
def isOkOutcome {ε α : Type} : Except ε α → Bool
  | .ok _ => true
  | .error _ => false

/-! ## Claims -/

/-- C1: every invocation of the send-message `POST` handler returns an
explicit body — either the success body with HTTP 200, or an error body
with a nonempty message and a non-200 status — on every path (parse
failure, missing wallet, successful send, failing send); never a silent
empty or default result. -/
theorem C1_post_always_explicit_success_or_error
    (parse : Option RequestBody) (send : StepOutcome) :
    ((POST parse send).response.status = 200 ∧
      (POST parse send).response.fields = [("status", "success")]) ∨
    (∃ msg, msg ≠ "" ∧ (POST parse send).response.status ≠ 200 ∧
      (POST parse send).response.fields = [("error", msg)]) := by
  cases parse with
  | none =>
      exact Or.inr ⟨"Failed to send message", by decide, by simp [POST], rfl⟩
  | some body =>
      cases hw : walletTruthy body with
      | false =>
          exact Or.inr ⟨"Wallet address is required", by decide,
            by simp [POST, hw], by simp [POST, hw]⟩
      | true =>
          cases send with
          | ok => exact Or.inl ⟨by simp [POST, hw], by simp [POST, hw]⟩
          | throws =>
              exact Or.inr ⟨"Failed to send message", by decide,
                by simp [POST, hw], by simp [POST, hw]⟩

/-- C2: for every wallet address string rejected by `validateWallet`
(the Base58, length 32–44 check), `handleSubmit` reports the validation
error and performs zero external calls: no body is posted to the
send-message endpoint (so nothing can reach the queue, a fetcher or the
model) and the history is untouched. -/
theorem C2_invalid_wallet_blocks_submission
    (addr prefs ts : String) (outcome : FetchOutcome) (prev : List Message)
    (h : validateWallet addr = false) :
    (handleSubmit addr prefs ts outcome prev).calls = [] ∧
    (handleSubmit addr prefs ts outcome prev).error =
      "Invalid wallet address format" ∧
    (handleSubmit addr prefs ts outcome prev).history = prev := by
  simp [handleSubmit, h]

/-- C2 witness: the malformed wallet string "abc!" fails validation, and
its submission posts nothing and reports the validation error. -/
theorem C2_invalid_wallet_blocks_submission_witness :
    validateWallet "abc!" = false ∧
    ((handleSubmit "abc!" "risky" "t0" .respOk []).calls = [] ∧
      (handleSubmit "abc!" "risky" "t0" .respOk []).error =
        "Invalid wallet address format" ∧
      (handleSubmit "abc!" "risky" "t0" .respOk []).history = []) :=
  ⟨by decide,
    C2_invalid_wallet_blocks_submission "abc!" "risky" "t0" .respOk [] (by decide)⟩

/-- C3 counterexample: the send-message `POST` route does not reject a
wallet of invalid format — "abc!" fails `validateWallet`, yet the route
(which only tests `!body.wallet`, i.e. presence) hands the message to the
queue and answers success. -/
theorem C3_route_queues_format_invalid_wallet :
    validateWallet "abc!" = false ∧
    (POST (some ⟨some "abc!", some "default"⟩) .ok).queued =
      [⟨some "abc!", some "default"⟩] ∧
    (POST (some ⟨some "abc!", some "default"⟩) .ok).response.status = 200 :=
  ⟨by decide, rfl, rfl⟩

/-- C3 amended: at the send-message `POST` route, a request whose wallet
field is missing or empty (JavaScript-falsy) is rejected immediately with
the 400 error body, and no message is handed to the queue for it; wallet
format is not validated at the route (that happens only in the client
form handler). -/
theorem C3_missing_wallet_rejected_before_queue
    (body : RequestBody) (send : StepOutcome)
    (h : walletTruthy body = false) :
    (POST (some body) send).queued = [] ∧
    (POST (some body) send).response.status = 400 ∧
    (POST (some body) send).response.fields =
      [("error", "Wallet address is required")] := by
  simp [POST, h]

/-- C3 witness: a body with no wallet field is falsy, and the route
rejects it with 400 and queues nothing. -/
theorem C3_missing_wallet_rejected_before_queue_witness :
    walletTruthy ⟨none, some "default"⟩ = false ∧
    ((POST (some ⟨none, some "default"⟩) .ok).queued = [] ∧
      (POST (some ⟨none, some "default"⟩) .ok).response.status = 400 ∧
      (POST (some ⟨none, some "default"⟩) .ok).response.fields =
        [("error", "Wallet address is required")]) :=
  ⟨by decide,
    C3_missing_wallet_rejected_before_queue ⟨none, some "default"⟩ .ok (by decide)⟩

/-- C4: for every form submission that passes wallet validation with an
empty preferences input, the body posted to the send-message endpoint has
preferences equal to the string "default" (the `preferences || 'default'`
fallback), whatever the fetch outcome. -/
theorem C4_empty_preferences_default_sent
    (addr ts : String) (outcome : FetchOutcome) (prev : List Message)
    (h : validateWallet addr = true) :
    (handleSubmit addr "" ts outcome prev).calls = [⟨addr, "default"⟩] := by
  cases outcome <;> simp [handleSubmit, h]

/-- C4 witness: a valid 32-character Base58 wallet with empty preferences
posts the body with preferences "default". -/
theorem C4_empty_preferences_default_sent_witness :
    validateWallet "AAAAAAAAAAAAAAAAAAAAAAAAAAAAAAAA" = true ∧
    (handleSubmit "AAAAAAAAAAAAAAAAAAAAAAAAAAAAAAAA" "" "t0" .respOk []).calls =
      [⟨"AAAAAAAAAAAAAAAAAAAAAAAAAAAAAAAA", "default"⟩] :=
  ⟨by decide,
    C4_empty_preferences_default_sent "AAAAAAAAAAAAAAAAAAAAAAAAAAAAAAAA" "t0"
      .respOk [] (by decide)⟩

/-- C5: whenever `sendToRabbitMQ` reaches the publish (connect, channel
creation, queue assertion and the send all succeed), the event trace
contains a publish of exactly `stringify message` — the verbatim
`JSON.stringify` of the given object — to the configured queue with the
persistent flag, and every publish in the trace is exactly that one:
nothing is added, removed or rewritten. -/
theorem C5_publish_payload_verbatim {α : Type} (stringify : α → String)
    (env : AmqpEnv) (message : α)
    (h1 : env.connect = .ok) (h2 : env.createChannel = .ok)
    (h3 : env.assertQueue = .ok) (h4 : env.send = .ok) :
    AmqpEvent.published env.queueName (stringify message) true ∈
      (sendToRabbitMQ stringify env message).events ∧
    (∀ q p per, AmqpEvent.published q p per ∈
        (sendToRabbitMQ stringify env message).events →
      q = env.queueName ∧ p = stringify message ∧ per = true) := by
  obtain ⟨q, c1, c2, c3, c4, c5⟩ := env
  simp only at h1 h2 h3 h4
  subst h1 h2 h3 h4
  cases c5 <;>
    exact ⟨by simp [sendToRabbitMQ],
      fun q' p' per' hmem => by
        simp [sendToRabbitMQ] at hmem
        exact ⟨hmem.1, hmem.2.1, hmem.2.2⟩⟩

/-- C5 witness: with every AMQP step succeeding, the form body
`(wallet "w", preferences "p")` is published to the configured queue
"input_queue" as exactly its JSON serialization. -/
theorem C5_publish_payload_verbatim_witness :
    AmqpEvent.published "input_queue" (sendBodyJson ⟨"w", "p"⟩) true ∈
      (sendToRabbitMQ sendBodyJson ⟨"input_queue", .ok, .ok, .ok, .ok, .ok⟩
        ⟨"w", "p"⟩).events :=
  (C5_publish_payload_verbatim sendBodyJson
    ⟨"input_queue", .ok, .ok, .ok, .ok, .ok⟩ ⟨"w", "p"⟩ rfl rfl rfl rfl).1

/-- C6 counterexample: with a valid request and an `Ok` sentiment finding
(so at least one analyzer succeeded), an aggregation model call that
fails on both the first attempt and the retry makes `processRequest`
return the `OrchestrationError` path, so the claim as stated — never an
`OrchestrationError` once one analyzer succeeds — is false on the
spec-modelled pipeline. -/
theorem C6_orchestration_error_despite_ok_finding :
    (settledFindings ⟨⟨.sentiment, "bullish", 1, 1, .ok⟩,
        ⟨.technical, "timeout", 0, 0, .failed⟩,
        ⟨.wallet, "fetch failed", 0, 0, .failed⟩⟩).any
      (fun f => f.status.isOkStatus) = true ∧
    (processRequest ⟨fun _ => .failed, fun _ => .failed⟩
        ⟨⟨.sentiment, "bullish", 1, 1, .ok⟩,
          ⟨.technical, "timeout", 0, 0, .failed⟩,
          ⟨.wallet, "fetch failed", 0, 0, .failed⟩⟩
        ⟨"AAAAAAAAAAAAAAAAAAAAAAAAAAAAAAAA", "default"⟩).outcome =
      .error .aggregationFailed :=
  ⟨by decide, rfl⟩

/-- C6 amended: for all inputs where at least one of the three analyzer
findings has status `Ok` and the aggregator's single model call settles
(the first attempt or its one retry yields a usable completion),
`processRequest` on a valid request returns a `Recommendation` — failure
of up to two of the three analyzers never by itself fails the pipeline;
only the aggregator's own model call failing after its retry does. -/
theorem C6_recommendation_when_aggregation_settles
    (oracle : ModelOracle) (outcomes : AnalyzerOutcomes) (req : WalletRequest)
    (hvalid : validateWallet req.walletAddress = true)
    (hok : (settledFindings outcomes).any (fun f => f.status.isOkStatus) = true)
    (hsettles : oracle.settles
      (aggregationPrompt (settledFindings outcomes)) = true) :
    isOkOutcome (processRequest oracle outcomes req).outcome = true := by
  unfold processRequest
  rw [hvalid]
  simp only [if_true]
  unfold synthesize
  rw [hok]
  simp only [if_true]
  unfold ModelOracle.settles at hsettles
  cases hfirst : replySettles
      (oracle.firstReply (aggregationPrompt (settledFindings outcomes))) with
  | some ar => simp [isOkOutcome]
  | none =>
      rw [hfirst] at hsettles
      simp only [Option.isSome_none, Bool.false_or] at hsettles
      cases hretry : replySettles
          (oracle.retryReply (aggregationPrompt (settledFindings outcomes))) with
      | some ar => simp [isOkOutcome]
      | none =>
          rw [hretry] at hsettles
          simp at hsettles

/-- C6 witness: a valid request, one `Ok` sentiment finding among two
failures, and a model oracle whose first completion parses, yield a
`Recommendation`. -/
theorem C6_recommendation_when_aggregation_settles_witness :
    validateWallet "AAAAAAAAAAAAAAAAAAAAAAAAAAAAAAAA" = true ∧
    (settledFindings ⟨⟨.sentiment, "bullish", 1, 1, .ok⟩,
        ⟨.technical, "timeout", 0, 0, .failed⟩,
        ⟨.wallet, "fetch failed", 0, 0, .failed⟩⟩).any
      (fun f => f.status.isOkStatus) = true ∧
    isOkOutcome (processRequest
        ⟨fun _ => .parsed .buy "one strong signal", fun _ => .failed⟩
        ⟨⟨.sentiment, "bullish", 1, 1, .ok⟩,
          ⟨.technical, "timeout", 0, 0, .failed⟩,
          ⟨.wallet, "fetch failed", 0, 0, .failed⟩⟩
        ⟨"AAAAAAAAAAAAAAAAAAAAAAAAAAAAAAAA", "default"⟩).outcome = true :=
  ⟨by decide, by decide,
    C6_recommendation_when_aggregation_settles
      ⟨fun _ => .parsed .buy "one strong signal", fun _ => .failed⟩
      ⟨⟨.sentiment, "bullish", 1, 1, .ok⟩,
        ⟨.technical, "timeout", 0, 0, .failed⟩,
        ⟨.wallet, "fetch failed", 0, 0, .failed⟩⟩
      ⟨"AAAAAAAAAAAAAAAAAAAAAAAAAAAAAAAA", "default"⟩
      (by decide) (by decide) rfl⟩

/-- C7: for every sequence of findings in which zero findings have
status `Ok` (including all three analyzers failing or timing out), the
aggregator returns `overallAction = NoAction` with the
insufficient-data rationale and makes zero model calls. -/
theorem C7_no_signal_no_model_call
    (oracle : ModelOracle) (walletAddress : String)
    (findings : List AgentFinding)
    (h : findings.any (fun f => f.status.isOkStatus) = false) :
    (synthesize oracle walletAddress findings).modelCalls = 0 ∧
    (synthesize oracle walletAddress findings).outcome =
      .ok (mkRecommendation walletAddress .noAction
        insufficientDataRationale findings) := by
  simp [synthesize, h]

/-- C7 witness: three findings that all failed or timed out yield
`NoAction` with the insufficient-data rationale and zero model calls,
even under an oracle that would happily answer. -/
theorem C7_no_signal_no_model_call_witness :
    ([⟨.sentiment, "timeout", 0, 0, .failed⟩,
      ⟨.technical, "timeout", 0, 0, .failed⟩,
      (⟨.wallet, "fetch failed", 0, 0, .failed⟩ : AgentFinding)].any
        (fun f => f.status.isOkStatus) = false) ∧
    ((synthesize ⟨fun _ => .parsed .buy "x", fun _ => .parsed .buy "x"⟩ "W"
        [⟨.sentiment, "timeout", 0, 0, .failed⟩,
         ⟨.technical, "timeout", 0, 0, .failed⟩,
         ⟨.wallet, "fetch failed", 0, 0, .failed⟩]).modelCalls = 0 ∧
      (synthesize ⟨fun _ => .parsed .buy "x", fun _ => .parsed .buy "x"⟩ "W"
        [⟨.sentiment, "timeout", 0, 0, .failed⟩,
         ⟨.technical, "timeout", 0, 0, .failed⟩,
         ⟨.wallet, "fetch failed", 0, 0, .failed⟩]).outcome =
        .ok (mkRecommendation "W" .noAction insufficientDataRationale
          [⟨.sentiment, "timeout", 0, 0, .failed⟩,
           ⟨.technical, "timeout", 0, 0, .failed⟩,
           ⟨.wallet, "fetch failed", 0, 0, .failed⟩])) :=
  ⟨by decide,
    C7_no_signal_no_model_call
      ⟨fun _ => .parsed .buy "x", fun _ => .parsed .buy "x"⟩ "W"
      [⟨.sentiment, "timeout", 0, 0, .failed⟩,
       ⟨.technical, "timeout", 0, 0, .failed⟩,
       ⟨.wallet, "fetch failed", 0, 0, .failed⟩] (by decide)⟩

/-- C8: the status `GET` handler answers with a JSON body whose status
field is "Connected" when the RabbitMQ connection check resolves and
"Disconnected" when it throws; being a total function of the check's
outcome, it propagates no error to the caller in either case. -/
theorem C8_status_get_connected_or_disconnected :
    GET .ok = ⟨200, [("status", "Connected")]⟩ ∧
    GET .throws = ⟨200, [("status", "Disconnected")]⟩ :=
  ⟨rfl, rfl⟩

/-- C9: on every execution path of `sendToRabbitMQ` on which the
connection was opened (the connect step resolved), the event trace begins
with the connect and ends with the connection close — after a successful
publish as well as when channel creation, queue assertion, the publish or
the channel close throws, so an error is rethrown only after the `finally`
block has closed the connection, and no connection is left open. -/
theorem C9_connection_closed_on_every_path {α : Type} (stringify : α → String)
    (env : AmqpEnv) (message : α) (h : env.connect = .ok) :
    (sendToRabbitMQ stringify env message).events.head? =
      some .connected ∧
    (sendToRabbitMQ stringify env message).events.getLast? =
      some .connectionClosed := by
  obtain ⟨q, c1, c2, c3, c4, c5⟩ := env
  simp only at h
  subst h
  cases c2 <;> cases c3 <;> cases c4 <;> cases c5 <;> exact ⟨rfl, rfl⟩

/-- C9 witness: a run in which queue assertion throws still opens with
the connect and closes the connection as its final action. -/
theorem C9_connection_closed_on_every_path_witness :
    (sendToRabbitMQ sendBodyJson
        ⟨"input_queue", .ok, .ok, .throws, .ok, .ok⟩ ⟨"w", "p"⟩).events.head? =
      some .connected ∧
    (sendToRabbitMQ sendBodyJson
        ⟨"input_queue", .ok, .ok, .throws, .ok, .ok⟩ ⟨"w", "p"⟩).events.getLast? =
      some .connectionClosed :=
  C9_connection_closed_on_every_path sendBodyJson
    ⟨"input_queue", .ok, .ok, .throws, .ok, .ok⟩ ⟨"w", "p"⟩ rfl

/-- C10: a successful submission with empty preferences prepends a
history entry recording the raw empty preferences text, while the body
sent to the queue endpoint carried the applied default "default" — the
default is not reflected in the local Recent Requests history. -/
theorem C10_history_records_raw_preferences
    (addr ts : String) (prev : List Message)
    (h : validateWallet addr = true) :
    (handleSubmit addr "" ts .respOk prev).history = ⟨addr, "", ts⟩ :: prev ∧
    (handleSubmit addr "" ts .respOk prev).calls = [⟨addr, "default"⟩] := by
  simp [handleSubmit, h]

/-- C10 witness: a valid wallet with empty preferences yields a history
entry with preferences "" while the posted body says "default". -/
theorem C10_history_records_raw_preferences_witness :
    (handleSubmit "AAAAAAAAAAAAAAAAAAAAAAAAAAAAAAAA" "" "t0" .respOk []).history =
      [⟨"AAAAAAAAAAAAAAAAAAAAAAAAAAAAAAAA", "", "t0"⟩] ∧
    (handleSubmit "AAAAAAAAAAAAAAAAAAAAAAAAAAAAAAAA" "" "t0" .respOk []).calls =
      [⟨"AAAAAAAAAAAAAAAAAAAAAAAAAAAAAAAA", "default"⟩] :=
  C10_history_records_raw_preferences "AAAAAAAAAAAAAAAAAAAAAAAAAAAAAAAA" "t0" []
    (by decide)

end Shadow
